import Mathlib

/-!
Shallow embedding of `modules/memmon.py` (class `MemUsageMonitor`).

The Python class is a `threading.Thread` holding a device reference, a
`threading.Event` gate (`run_flag`), a `defaultdict(int)` metric map (`data`),
a `disabled` flag set once at construction, and a configured polling rate
(`opts.memmon_poll_rate`).

Embedding choices:
* the metric map `defaultdict(int)` becomes a total function `String → Int`
  defaulting to 0;
* the device-query primitives (`torch.cuda.mem_get_info`,
  `hthpu.memory_info`, `torch.cuda.memory_stats`, `hthpu.memory_stats`,
  `hthpu.memory_allocated`, `hthpu.max_memory_allocated`) are external
  collaborators: each call site receives its result through a `DeviceQuery`
  record supplied as an argument;
* the background thread's activity on one gate-opening (`run`'s outer loop
  body) is `runWake`, parameterised by the baseline query result and the list
  of query results the inner loop obtains before it observes the gate closed;
* Python code that would raise `NameError` (the branches where `free`/`total`
  are never bound because the device type is neither `cuda` nor `hpu`) is
  modelled with `Option`, `none` standing for the escaped exception.
-/

namespace Memmon

/-- The device type tag (`self.device.type` in the source). The code branches
on `'cuda'` and `'hpu'`; `other` stands for any other tag. -/
inductive DeviceType where
  | cuda
  | hpu
  | other
  deriving DecidableEq

/-- Result of `hthpu.memory_info()`: an object with `free`, `total` and
`used` fields. -/
structure HpuMemInfo where
  free : Int
  total : Int
  used : Int
  deriving DecidableEq

/-- The subset of `torch.cuda.memory_stats(...)` keys the source reads. -/
structure CudaStats where
  active_all_current : Int
  active_bytes_all_peak : Int
  reserved_bytes_all_current : Int
  reserved_bytes_all_peak : Int
  deriving DecidableEq

/-- One snapshot of everything the device-query primitives could return at a
given call: `cudaFree`/`cudaTotal` model `torch.cuda.mem_get_info`,
`cudaStats` models `torch.cuda.memory_stats`, `hpuMemInfo` models
`hthpu.memory_info()`, and the remaining fields model `hthpu.memory_allocated`,
`hthpu.max_memory_allocated` and the `Limit`/`NumAllocs`/`NumFrees` entries of
`hthpu.memory_stats()`. -/
structure DeviceQuery where
  cudaFree : Int
  cudaTotal : Int
  cudaStats : CudaStats
  hpuMemInfo : HpuMemInfo
  hpuMemoryAllocated : Int
  hpuMaxMemoryAllocated : Int
  hpuLimit : Int
  hpuNumAllocs : Int
  hpuNumFrees : Int
  deriving DecidableEq

/-- State of one `MemUsageMonitor` instance: the fields of the Python object
that the monitored behaviour depends on. `data` is the `defaultdict(int)`
aggregate map; `run_flag` is the `threading.Event` gate (`true` = set). -/
structure MemUsageMonitor where
  device : DeviceType
  memmon_poll_rate : Int
  disabled : Bool
  run_flag : Bool
  data : String → Int

/-- Whether the construction-time capability probe
(`cuda_mem_get_info`/`torch.cuda.memory_stats` for cuda,
`hpu_mem_get_info` for hpu) raises. -/
inductive ProbeResult where
  | ok
  | err
  deriving DecidableEq

def probeRaises : ProbeResult → Bool
  | .ok => false
  | .err => true

/-- `MemUsageMonitor.__init__`: `data = defaultdict(int)`, `run_flag` unset,
and the guarded probe: cuda probes the device; hpu probes only when the
`habana_frameworks` import succeeded and `hthpu.is_available()` (merged into
`hthpu_available`), otherwise `raise Exception("Unsupported device type")`;
any exception is caught and sets `disabled = True`. The function is total:
no exception escapes construction. -/
def init (device : DeviceType) (hthpu_available : Bool) (probe : ProbeResult)
    (memmon_poll_rate : Int) : MemUsageMonitor :=
  let disabled :=
    match device with
    | .cuda => probeRaises probe
    | .hpu => if hthpu_available then probeRaises probe else true
    | .other => true
  { device := device, memmon_poll_rate := memmon_poll_rate, disabled := disabled,
    run_flag := false, data := fun _ => 0 }

/-- `self.data[k] = v` on the `defaultdict`. -/
def updateKey (d : String → Int) (k : String) (v : Int) : String → Int :=
  fun k' => if k' = k then v else d k'

/-- The per-device free-memory extraction used by `run`'s loop
(`cuda_mem_get_info()[0]` / `hpu_mem_get_info().free`); `none` when the device
type matches neither branch. -/
def queryFree (t : DeviceType) (q : DeviceQuery) : Option Int :=
  match t with
  | .cuda => some q.cudaFree
  | .hpu => some q.hpuMemInfo.free
  | .other => none

/-- The per-device (free, total) extraction used by `read`. -/
def queryFreeTotal (t : DeviceType) (q : DeviceQuery) : Option (Int × Int) :=
  match t with
  | .cuda => some (q.cudaFree, q.cudaTotal)
  | .hpu => some (q.hpuMemInfo.free, q.hpuMemInfo.total)
  | .other => none

/-- The baseline assignment in `run`:
`self.data["min_free"] = <device free>` for cuda/hpu; for any other device
type neither branch runs and the map is left alone (no exception here). -/
def baselineSample (m : MemUsageMonitor) (q : DeviceQuery) : MemUsageMonitor :=
  match m.device with
  | .cuda => { m with data := updateKey m.data "min_free" q.cudaFree }
  | .hpu => { m with data := updateKey m.data "min_free" q.hpuMemInfo.free }
  | .other => m

/-- One iteration of the inner `while self.run_flag.is_set()` loop: query
free/total, then `self.data["min_free"] = min(self.data["min_free"], free)`.
For a device type matching neither branch, `free` is unbound in the source
and the iteration raises `NameError` (`none`). The `time.sleep` is timing
only and has no state effect. -/
def loopSample (m : MemUsageMonitor) (q : DeviceQuery) : Option MemUsageMonitor :=
  match m.device with
  | .cuda =>
    some { m with data := updateKey m.data "min_free" (min (m.data "min_free") q.cudaFree) }
  | .hpu =>
    some { m with
      data := updateKey m.data "min_free" (min (m.data "min_free") q.hpuMemInfo.free) }
  | .other => none

/-- The inner sampling loop run over the query results it obtains before
observing the gate closed. -/
def runLoop (m : MemUsageMonitor) : List DeviceQuery → Option MemUsageMonitor
  | [] => some m
  | q :: qs => (loopSample m q).bind (fun m' => runLoop m' qs)

/-- One wake of `run`'s outer loop, i.e. the thread body after
`self.run_flag.wait()` returns: if `disabled`, `run` returned before ever
waiting, so the state is untouched; otherwise clear the aggregate map
(`torch.cuda.reset_peak_memory_stats()` is an effect on the external device,
not on this state), then if `memmon_poll_rate <= 0` clear the gate and go
back to waiting, else take the baseline sample and run the inner loop over
`qs`, the queries performed while the gate stays open. -/
def runWake (m : MemUsageMonitor) (baseline : DeviceQuery) (qs : List DeviceQuery) :
    Option MemUsageMonitor :=
  if m.disabled then some m
  else
    let m1 : MemUsageMonitor := { m with data := fun _ => 0 }
    if m.memmon_poll_rate ≤ 0 then some { m1 with run_flag := false }
    else runLoop (baselineSample m1 baseline) qs

/-- `MemUsageMonitor.monitor`: `self.run_flag.set()`. -/
def monitor (m : MemUsageMonitor) : MemUsageMonitor :=
  { m with run_flag := true }

/-- `MemUsageMonitor.read`: when not disabled, one fresh device query writes
the allocator statistics, then `free`, `total` and
`system_peak = total - self.data["min_free"]`; the (possibly updated) map is
the return value, here recovered as the `data` field of the returned state.
When the device type is neither cuda nor hpu, `free`/`total` are unbound at
`self.data["free"] = free` and the call raises `NameError` (`none`) —
unreachable from construction, which disables such monitors. -/
def read (m : MemUsageMonitor) (q : DeviceQuery) : Option MemUsageMonitor :=
  if m.disabled then some m
  else
    match m.device with
    | .cuda =>
      let free := q.cudaFree
      let total := q.cudaTotal
      let d := updateKey m.data "active" q.cudaStats.active_all_current
      let d := updateKey d "active_peak" q.cudaStats.active_bytes_all_peak
      let d := updateKey d "reserved" q.cudaStats.reserved_bytes_all_current
      let d := updateKey d "reserved_peak" q.cudaStats.reserved_bytes_all_peak
      let d := updateKey d "free" free
      let d := updateKey d "total" total
      let d := updateKey d "system_peak" (total - d "min_free")
      some { m with data := d }
    | .hpu =>
      let free := q.hpuMemInfo.free
      let total := q.hpuMemInfo.total
      let d := updateKey m.data "active" q.hpuMemoryAllocated
      let d := updateKey d "active_peak" q.hpuMaxMemoryAllocated
      let d := updateKey d "reserved" q.hpuMemInfo.used
      let d := updateKey d "reserved_peak" q.hpuMemInfo.used
      let d := updateKey d "total_memory" q.hpuLimit
      let d := updateKey d "num_allocs" q.hpuNumAllocs
      let d := updateKey d "num_frees" q.hpuNumFrees
      let d := updateKey d "free" free
      let d := updateKey d "total" total
      let d := updateKey d "system_peak" (total - d "min_free")
      some { m with data := d }
    | .other => none

/-- `MemUsageMonitor.stop`: `self.run_flag.clear()` then `return self.read()`. -/
def stop (m : MemUsageMonitor) (q : DeviceQuery) : Option MemUsageMonitor :=
  read { m with run_flag := false } q

/-- `MemUsageMonitor.dump_debug`: prints `self.read().items()` (and, for cuda,
read-only `torch.cuda.memory_stats`/`memory_summary` output). Its only state
effect is the embedded `read` call. -/
def dump_debug (m : MemUsageMonitor) (q : DeviceQuery) : Option MemUsageMonitor :=
  read m q

/-- The keys the non-disabled `read` path may write. -/
def readWrittenKeys : List String :=
  ["active", "active_peak", "reserved", "reserved_peak",
   "total_memory", "num_allocs", "num_frees", "free", "total", "system_peak"]

/-- A `DeviceQuery` for a cuda device reporting `free`/`total` bytes and
zeroed allocator statistics. -/
def mkCudaQuery (free total : Int) : DeviceQuery :=
  { cudaFree := free, cudaTotal := total,
    cudaStats :=
      { active_all_current := 0, active_bytes_all_peak := 0,
        reserved_bytes_all_current := 0, reserved_bytes_all_peak := 0 },
    hpuMemInfo := { free := 0, total := 0, used := 0 },
    hpuMemoryAllocated := 0, hpuMaxMemoryAllocated := 0,
    hpuLimit := 0, hpuNumAllocs := 0, hpuNumFrees := 0 }

/-- A `DeviceQuery` for an hpu device reporting `free`/`total`/`used`. -/
def mkHpuQuery (free total used : Int) : DeviceQuery :=
  { cudaFree := 0, cudaTotal := 0,
    cudaStats :=
      { active_all_current := 0, active_bytes_all_peak := 0,
        reserved_bytes_all_current := 0, reserved_bytes_all_peak := 0 },
    hpuMemInfo := { free := free, total := total, used := used },
    hpuMemoryAllocated := 0, hpuMaxMemoryAllocated := 0,
    hpuLimit := 0, hpuNumAllocs := 0, hpuNumFrees := 0 }

/-- The free-memory values a list of queries yields for device type `t`. -/
def freesOf (t : DeviceType) : List DeviceQuery → Option (List Int)
  | [] => some []
  | q :: qs =>
    match queryFree t q, freesOf t qs with
    | some f, some fs => some (f :: fs)
    | _, _ => none

theorem updateKey_same (d : String → Int) (k : String) (v : Int) :
    updateKey d k v k = v := by simp [updateKey]

theorem updateKey_updateKey (d : String → Int) (k : String) (a b : Int) :
    updateKey (updateKey d k a) k b = updateKey d k b := by
  funext k'
  by_cases h : k' = k <;> simp [updateKey, h]

theorem updateKey_self (d : String → Int) (k : String) :
    updateKey d k (d k) = d := by
  funext k'
  by_cases h : k' = k <;> simp [updateKey, h]

theorem baselineSample_eq (m : MemUsageMonitor) (q : DeviceQuery) (f : Int)
    (hf : queryFree m.device q = some f) :
    baselineSample m q = { m with data := updateKey m.data "min_free" f } := by
  cases ht : m.device <;> simp [queryFree, ht] at hf <;> simp [baselineSample, ht, hf]

theorem loopSample_eq (m : MemUsageMonitor) (q : DeviceQuery) (f : Int)
    (hf : queryFree m.device q = some f) :
    loopSample m q =
      some { m with data := updateKey m.data "min_free" (min (m.data "min_free") f) } := by
  cases ht : m.device <;> simp [queryFree, ht] at hf <;> simp [loopSample, ht, hf]

/-- Closed form of the inner sampling loop: it only folds `min` over the
free values into `data "min_free"`. -/
theorem runLoop_eq (qs : List DeviceQuery) (fs : List Int) (m : MemUsageMonitor)
    (hf : freesOf m.device qs = some fs) :
    runLoop m qs =
      some { m with data := updateKey m.data "min_free" (fs.foldl min (m.data "min_free")) } := by
  induction qs generalizing fs m with
  | nil =>
    simp [freesOf] at hf
    subst hf
    simp [runLoop, List.foldl, updateKey_self]
  | cons q qs ih =>
    cases hq : queryFree m.device q with
    | none => simp [freesOf, hq] at hf
    | some f =>
      cases hrest : freesOf m.device qs with
      | none => simp [freesOf, hq, hrest] at hf
      | some fs' =>
        simp [freesOf, hq, hrest] at hf
        subst hf
        have h1 : runLoop m (q :: qs) =
            runLoop { m with data := updateKey m.data "min_free" (min (m.data "min_free") f) } qs := by
          rw [runLoop, loopSample_eq m q f hq, Option.some_bind]
        have h2 := ih fs'
          ({ m with data := updateKey m.data "min_free" (min (m.data "min_free") f) } :
            MemUsageMonitor) hrest
        rw [h1, h2]
        simp [updateKey_same, updateKey_updateKey, List.foldl]

/-- With a non-positive polling rate, a wake of the background loop only
clears the aggregate map and closes the gate: no sample is taken. -/
theorem runWake_nonpos (m : MemUsageMonitor) (baseline : DeviceQuery)
    (qs : List DeviceQuery) (hd : m.disabled = false) (hp : m.memmon_poll_rate ≤ 0) :
    runWake m baseline qs = some { m with data := fun _ => 0, run_flag := false } := by
  simp [runWake, hd, hp]

/-- With a positive polling rate, a wake of the background loop clears the
map, records the baseline free value and folds `min` over the loop samples
into `min_free`. -/
theorem runWake_pos (m : MemUsageMonitor) (baseline : DeviceQuery) (qs : List DeviceQuery)
    (bf : Int) (fs : List Int)
    (hd : m.disabled = false) (hp : 0 < m.memmon_poll_rate)
    (hb : queryFree m.device baseline = some bf)
    (hf : freesOf m.device qs = some fs) :
    runWake m baseline qs =
      some { m with data := updateKey (fun _ => 0) "min_free" (fs.foldl min bf) } := by
  have h1 : runWake m baseline qs =
      runLoop (baselineSample { m with data := fun _ => 0 } baseline) qs := by
    rw [runWake]
    rw [if_neg (by simp [hd]), if_neg (by simp [not_le.mpr hp])]
  have h2 : baselineSample ({ m with data := fun _ => 0 } : MemUsageMonitor) baseline
      = { m with data := updateKey (fun _ => 0) "min_free" bf } :=
    baselineSample_eq ({ m with data := fun _ => 0 } : MemUsageMonitor) baseline bf hb
  rw [h1, h2,
    runLoop_eq qs fs ({ m with data := updateKey (fun _ => 0) "min_free" bf } :
      MemUsageMonitor) hf]
  simp [updateKey_same, updateKey_updateKey]

/-- `read` leaves `min_free` untouched: the read path never writes that key. -/
theorem read_min_free (m : MemUsageMonitor) (q : DeviceQuery) (m' : MemUsageMonitor)
    (h : read m q = some m') : m'.data "min_free" = m.data "min_free" := by
  by_cases hd : m.disabled <;> cases ht : m.device <;>
    simp [read, hd, ht] at h <;> subst h <;> simp [updateKey, hd]

theorem read_run_flag (m : MemUsageMonitor) (q : DeviceQuery) (m' : MemUsageMonitor)
    (h : read m q = some m') : m'.run_flag = m.run_flag := by
  by_cases hd : m.disabled <;> cases ht : m.device <;>
    simp [read, hd, ht] at h <;> subst h <;> simp [hd]

theorem read_disabled (m : MemUsageMonitor) (q : DeviceQuery) (m' : MemUsageMonitor)
    (h : read m q = some m') : m'.disabled = m.disabled := by
  by_cases hd : m.disabled <;> cases ht : m.device <;>
    simp [read, hd, ht] at h <;> subst h <;> simp [hd]

/-- `read` leaves every key outside `readWrittenKeys` untouched. -/
theorem read_preserves_key (m : MemUsageMonitor) (q : DeviceQuery) (m' : MemUsageMonitor)
    (k : String) (h : read m q = some m') (hk : k ∉ readWrittenKeys) :
    m'.data k = m.data k := by
  simp [readWrittenKeys] at hk
  obtain ⟨h1, h2, h3, h4, h5, h6, h7, h8, h9, h10⟩ := hk
  by_cases hd : m.disabled <;> cases ht : m.device <;>
    simp [read, hd, ht] at h <;> subst h <;>
    simp [updateKey, h1, h2, h3, h4, h5, h6, h7, h8, h9, h10, hd]

/-- A non-disabled `read` stores `system_peak = total - min_free` (with the
pre-read `min_free`, which `read` does not change). -/
theorem read_system_peak (m : MemUsageMonitor) (q : DeviceQuery) (m' : MemUsageMonitor)
    (h : read m q = some m') (hd : m.disabled = false) :
    m'.data "system_peak" = m'.data "total" - m.data "min_free" := by
  cases ht : m.device <;> simp [read, hd, ht] at h <;> subst h <;> simp [updateKey]

/-- A non-disabled `read` stores the queried free/total values. -/
theorem read_free_total (m : MemUsageMonitor) (q : DeviceQuery) (m' : MemUsageMonitor)
    (ft : Int × Int) (h : read m q = some m')
    (hq : queryFreeTotal m.device q = some ft) (hd : m.disabled = false) :
    m'.data "free" = ft.1 ∧ m'.data "total" = ft.2 := by
  cases ht : m.device <;> simp [queryFreeTotal, ht] at hq <;>
    simp [read, hd, ht] at h <;> subst h <;> simp [updateKey, ← hq]

theorem foldl_min_le_start (fs : List Int) (b : Int) : fs.foldl min b ≤ b := by
  induction fs generalizing b with
  | nil => simp
  | cons f fs ih =>
    calc (f :: fs).foldl min b = fs.foldl min (min b f) := rfl
    _ ≤ min b f := ih _
    _ ≤ b := min_le_left _ _

theorem foldl_min_le_mem (fs : List Int) (b x : Int) (hx : x ∈ fs) :
    fs.foldl min b ≤ x := by
  induction fs generalizing b with
  | nil => simp at hx
  | cons f fs ih =>
    rcases List.mem_cons.mp hx with rfl | hx
    · calc (x :: fs).foldl min b = fs.foldl min (min b x) := rfl
      _ ≤ min b x := foldl_min_le_start _ _
      _ ≤ x := min_le_right _ _
    · exact ih _ hx

theorem foldl_min_mem (fs : List Int) (b : Int) :
    fs.foldl min b = b ∨ fs.foldl min b ∈ fs := by
  induction fs generalizing b with
  | nil => exact Or.inl rfl
  | cons f fs ih =>
    rcases ih (min b f) with h | h
    · rcases min_choice b f with hm | hm
      · exact Or.inl (by rw [List.foldl_cons, h, hm])
      · refine Or.inr ?_
        rw [List.foldl_cons, h, hm]
        exact List.mem_cons_self _ _
    · exact Or.inr (List.mem_cons_of_mem _ h)

theorem freesOf_append (t : DeviceType) (qs qs2 : List DeviceQuery)
    (fs fs2 : List Int) (h : freesOf t qs = some fs) (h2 : freesOf t qs2 = some fs2) :
    freesOf t (qs ++ qs2) = some (fs ++ fs2) := by
  induction qs generalizing fs with
  | nil =>
    simp [freesOf] at h
    subst h
    simpa using h2
  | cons q qs ih =>
    cases hq : queryFree t q with
    | none => simp [freesOf, hq] at h
    | some f =>
      cases hrest : freesOf t qs with
      | none => simp [freesOf, hq, hrest] at h
      | some fs' =>
        simp [freesOf, hq, hrest] at h
        subst h
        simp [freesOf, hq, ih fs' hrest]

/-- C1 counterexample: a non-disabled cuda monitor with polling rate 0.
`monitor()` then the background wake then `stop()` leaves `min_free = 0`,
while the only free values the device ever reports are 5 (available to the
baseline query, which is skipped) and 7 (seen by `stop`'s final read): the
claim that `min_free` equals a baseline sample's free value is false, since
the `memmon_poll_rate <= 0` check in `run` precedes the baseline sample. -/
theorem C1_counterexample :
    ((runWake (monitor (init .cuda true .ok 0)) (mkCudaQuery 5 10) []).bind
      (fun m1 => stop m1 (mkCudaQuery 7 10))).map (fun m2 => m2.data "min_free") = some 0
    ∧ (0 : Int) ≠ 5 ∧ (0 : Int) ≠ 7 := ⟨rfl, by decide, by decide⟩

/-- C1 (amended): for every monitor constructed not-Disabled with configured
polling rate ≤ 0, the wake of the background loop after `monitor()` takes no
baseline sample at all: it clears the aggregate map (so `min_free = 0`, the
defaultdict default) and immediately closes the gate, and after `stop()` the
aggregate map has `min_free = 0` and `system_peak = total`. -/
theorem C1_theorem (m : MemUsageMonitor) (baseline q : DeviceQuery) (qs : List DeviceQuery)
    (hd : m.disabled = false) (hp : m.memmon_poll_rate ≤ 0) :
    (runWake (monitor m) baseline qs).map (fun x => (x.data "min_free", x.run_flag))
      = some (0, false)
    ∧ ∀ m1 m2, runWake (monitor m) baseline qs = some m1 → stop m1 q = some m2 →
        m2.data "min_free" = 0 ∧ m2.data "system_peak" = m2.data "total" := by
  have hw := runWake_nonpos (monitor m) baseline qs hd hp
  constructor
  · rw [hw]; rfl
  · intro m1 m2 h1 h2
    rw [hw] at h1
    injection h1 with h1
    subst h1
    simp only [stop] at h2
    constructor
    · rw [read_min_free _ q m2 h2]
    · rw [read_system_peak _ q m2 h2 hd]
      simp

/-- C1 witness: the amended claim evaluated on a concrete cuda monitor with
polling rate 0: after `monitor(); (wake); stop()`, `min_free` is 0. -/
theorem C1_witness :
    ((stop ((runWake (monitor (init .cuda true .ok 0)) (mkCudaQuery 5 10) []).getD
        (init .cuda true .ok 0)) (mkCudaQuery 7 10)).getD (init .cuda true .ok 0)).data "min_free"
      = 0 :=
  ((C1_theorem (init .cuda true .ok 0) (mkCudaQuery 5 10) (mkCudaQuery 7 10) []
    rfl (by decide)).2 _ _ rfl rfl).1

/-- C2 counterexample: for a non-disabled Idle cuda monitor with empty
aggregate map, `stop()` is not a no-op on the map: the final read writes
`total = 10` where the map held 0 before. -/
theorem C2_counterexample :
    (stop (init .cuda true .ok 1) (mkCudaQuery 5 10)).map (fun m => m.data "total") = some 10
    ∧ (init .cuda true .ok 1).run_flag = false
    ∧ (init .cuda true .ok 1).disabled = false
    ∧ (init .cuda true .ok 1).data "total" = 0
    ∧ (10 : Int) ≠ 0 := ⟨rfl, rfl, rfl, rfl, by decide⟩

/-- C2 (amended): for every monitor in the Idle state (gate closed),
`stop()` coincides with a plain `read()`: the monitor stays Idle, `min_free`
and every key outside the read-written set are unchanged, and for a Disabled
monitor it returns the state fully unchanged; but the final read may rewrite
the read-path keys (`free`, `total`, `system_peak`, allocator statistics),
so the aggregate map is not left unchanged in general. -/
theorem C2_theorem (m : MemUsageMonitor) (q : DeviceQuery) (hidle : m.run_flag = false) :
    stop m q = read m q
    ∧ (m.disabled = true → stop m q = some m)
    ∧ ∀ m', stop m q = some m' →
        m'.run_flag = false ∧ m'.data "min_free" = m.data "min_free" ∧
        ∀ k, k ∉ readWrittenKeys → m'.data k = m.data k := by
  have hm : ({ m with run_flag := false } : MemUsageMonitor) = m := by
    cases m; simp_all
  refine ⟨?_, ?_, ?_⟩
  · simp only [stop]; rw [hm]
  · intro hd
    simp only [stop]
    rw [hm]
    simp [read, hd]
  · intro m' h
    simp only [stop] at h
    rw [hm] at h
    exact ⟨by rw [read_run_flag m q m' h, hidle],
           read_min_free m q m' h,
           fun k hk => read_preserves_key m q m' k h hk⟩

/-- C2 witness: the amended claim evaluated on a concrete Idle monitor:
`stop()` equals a plain `read()` there. -/
theorem C2_witness :
    stop (init .cuda true .ok 1) (mkCudaQuery 5 10)
      = read (init .cuda true .ok 1) (mkCudaQuery 5 10) :=
  (C2_theorem (init .cuda true .ok 1) (mkCudaQuery 5 10) rfl).1

/-- C3: after `monitor()` and an episode whose baseline query yields `bf` and
whose loop samples yield `fs` (so the delivered free samples are `bf :: fs`,
N ≥ 1), the aggregate `min_free` is the minimum of the delivered samples
(it is one of them and is ≤ each of them), and it is non-increasing as
further samples arrive within the same episode. -/
theorem C3_theorem (m : MemUsageMonitor) (baseline : DeviceQuery) (qs : List DeviceQuery)
    (bf : Int) (fs : List Int) (m' : MemUsageMonitor)
    (hd : m.disabled = false) (hp : 0 < m.memmon_poll_rate)
    (hb : queryFree m.device baseline = some bf)
    (hf : freesOf m.device qs = some fs)
    (h : runWake (monitor m) baseline qs = some m') :
    m'.data "min_free" ∈ bf :: fs
    ∧ (∀ f ∈ bf :: fs, m'.data "min_free" ≤ f)
    ∧ ∀ qs2 fs2 m2, freesOf m.device qs2 = some fs2 →
        runWake (monitor m) baseline (qs ++ qs2) = some m2 →
        m2.data "min_free" ≤ m'.data "min_free" := by
  have hw := runWake_pos (monitor m) baseline qs bf fs hd hp hb hf
  rw [hw] at h
  injection h with h
  subst h
  refine ⟨?_, ?_, ?_⟩
  · simp only [updateKey_same]
    rcases foldl_min_mem fs bf with h1 | h1
    · rw [h1]; exact List.mem_cons_self _ _
    · exact List.mem_cons_of_mem _ h1
  · intro f hfmem
    simp only [updateKey_same]
    rcases List.mem_cons.mp hfmem with rfl | hfmem
    · exact foldl_min_le_start fs f
    · exact foldl_min_le_mem fs bf f hfmem
  · intro qs2 fs2 m2 hf2 h2
    have hw2 := runWake_pos (monitor m) baseline (qs ++ qs2) bf (fs ++ fs2) hd hp hb
      (freesOf_append m.device qs qs2 fs fs2 hf hf2)
    rw [hw2] at h2
    injection h2 with h2
    subst h2
    simp only [updateKey_same]
    rw [List.foldl_append]
    exact foldl_min_le_start fs2 (fs.foldl min bf)

/-- C3 witness: concrete episode with baseline free 800 and one loop sample
600; the resulting `min_free` is ≤ 600. -/
theorem C3_witness :
    ((runWake (monitor (init .cuda true .ok 1)) (mkCudaQuery 800 1000)
        [mkCudaQuery 600 1000]).getD (init .cuda true .ok 1)).data "min_free" ≤ 600 :=
  (C3_theorem (init .cuda true .ok 1) (mkCudaQuery 800 1000) [mkCudaQuery 600 1000]
    800 [600] _ rfl (by decide) rfl rfl rfl).2.1 600 (by simp)

/-- C4: immediately after any `read()` (on any state reachable for that
flag: non-disabled, or disabled with the all-zero map a disabled monitor
keeps forever), the aggregate map satisfies
`system_peak = total - min_free`; and the concrete scenario: device total
1000, sequential free samples 800 (baseline), 600 (loop), 900 (seen by the
read), a `read()` after them yields `min_free = 600`, `free = 900`,
`total = 1000`, `system_peak = 400`. -/
theorem C4_theorem :
    (∀ (m : MemUsageMonitor) (q : DeviceQuery) (m' : MemUsageMonitor),
      (m.disabled = false ∨ ∀ k, m.data k = 0) → read m q = some m' →
      m'.data "system_peak" = m'.data "total" - m'.data "min_free")
    ∧ ((runWake (monitor (init .cuda true .ok 1)) (mkCudaQuery 800 1000)
          [mkCudaQuery 600 1000]).bind
        (fun m1 => read m1 (mkCudaQuery 900 1000))).map
        (fun m2 => (m2.data "min_free", m2.data "free", m2.data "total", m2.data "system_peak"))
      = some (600, 900, 1000, 400) := by
  constructor
  · intro m q m' hok h
    by_cases hd : m.disabled = true
    · have hm : m' = m := by
        simp [read, hd] at h
        exact h.symm
      subst hm
      rcases hok with hd' | hz
      · rw [hd] at hd'; cases hd'
      · rw [hz, hz, hz]; simp
    · have hd' : m.disabled = false := by simpa using hd
      rw [read_system_peak m q m' h hd', read_min_free m q m' h]
  · rfl

/-- C4 witness: the invariant instantiated on a concrete non-disabled
monitor and query. -/
theorem C4_witness :
    ((read (init .cuda true .ok 1) (mkCudaQuery 5 10)).getD (init .cuda true .ok 1)).data "system_peak"
      = ((read (init .cuda true .ok 1) (mkCudaQuery 5 10)).getD (init .cuda true .ok 1)).data "total"
        - ((read (init .cuda true .ok 1) (mkCudaQuery 5 10)).getD (init .cuda true .ok 1)).data "min_free" :=
  C4_theorem.1 (init .cuda true .ok 1) (mkCudaQuery 5 10) _ (Or.inl rfl) rfl

/-- C5: for every device whose type is unrecognized, whose hpu backend is
unavailable, or whose capability probe raises, construction completes (the
embedding of `__init__` is a total function: no exception escapes), sets
`disabled = true`, seeds the aggregate map all-zero, and every subsequent
`read()` returns the state unchanged, writing no metric. -/
theorem C5_theorem (t : DeviceType) (avail : Bool) (p : ProbeResult) (rate : Int)
    (h : t = .other ∨ (t = .hpu ∧ avail = false) ∨ p = .err) :
    (init t avail p rate).disabled = true
    ∧ (∀ k, (init t avail p rate).data k = 0)
    ∧ ∀ q, read (init t avail p rate) q = some (init t avail p rate) := by
  have hd : (init t avail p rate).disabled = true := by
    rcases h with rfl | ⟨rfl, rfl⟩ | rfl
    · rfl
    · rfl
    · cases t <;> cases avail <;> rfl
  exact ⟨hd, fun k => rfl, fun q => by simp [read, hd]⟩

/-- C5 witness: an unsupported device type yields a disabled monitor whose
map is zero and whose `read` is the identity. -/
theorem C5_witness :
    (init .other true .ok 1).disabled = true
    ∧ (init .other true .ok 1).data "active" = 0
    ∧ read (init .other true .ok 1) (mkCudaQuery 5 10) = some (init .other true .ok 1) :=
  ⟨(C5_theorem .other true .ok 1 (Or.inl rfl)).1,
   (C5_theorem .other true .ok 1 (Or.inl rfl)).2.1 "active",
   (C5_theorem .other true .ok 1 (Or.inl rfl)).2.2 (mkCudaQuery 5 10)⟩

/-- C6 counterexample: `dump_debug` does alter the aggregate map: on a fresh
non-disabled cuda monitor it writes `total = 10` where the map held 0,
because `dump_debug` prints `self.read().items()` and that `read` mutates
the map. -/
theorem C6_counterexample :
    (dump_debug (init .cuda true .ok 1) (mkCudaQuery 5 10)).map (fun m => m.data "total") = some 10
    ∧ (init .cuda true .ok 1).data "total" = 0
    ∧ (10 : Int) ≠ 0 := ⟨rfl, rfl, by decide⟩

/-- C6 (amended): `dump_debug`'s state effect is exactly that of the
embedded `read()` call: the Disabled/Idle/Sampling state (`disabled`,
`run_flag`) and `min_free` and every key outside the read-written set are
unchanged, but the read-path keys of the aggregate map may be rewritten, so
`dump_debug` is not purely observational. -/
theorem C6_theorem (m : MemUsageMonitor) (q : DeviceQuery) :
    dump_debug m q = read m q
    ∧ ∀ m', dump_debug m q = some m' →
        m'.run_flag = m.run_flag ∧ m'.disabled = m.disabled ∧
        m'.data "min_free" = m.data "min_free" ∧
        ∀ k, k ∉ readWrittenKeys → m'.data k = m.data k :=
  ⟨rfl, fun m' h => ⟨read_run_flag m q m' h, read_disabled m q m' h,
    read_min_free m q m' h, fun k hk => read_preserves_key m q m' k h hk⟩⟩

/-- C6 witness: on a concrete monitor, `dump_debug` leaves `min_free`
unchanged. -/
theorem C6_witness :
    ((dump_debug (init .cuda true .ok 1) (mkCudaQuery 5 10)).getD (init .cuda true .ok 1)).data "min_free"
      = (init .cuda true .ok 1).data "min_free" :=
  ((C6_theorem (init .cuda true .ok 1) (mkCudaQuery 5 10)).2 _ rfl).2.2.1

/-- C7: for every monitor and every `read()` call that returns, the read
path leaves `min_free` unchanged (in particular it never increases it),
including reads issued while the gate is open (the state passed in may have
`run_flag = true`; the statement quantifies over all states). -/
theorem C7_theorem (m : MemUsageMonitor) (q : DeviceQuery) (m' : MemUsageMonitor)
    (h : read m q = some m') :
    m'.data "min_free" = m.data "min_free" ∧ m'.data "min_free" ≤ m.data "min_free" :=
  ⟨read_min_free m q m' h, le_of_eq (read_min_free m q m' h)⟩

/-- C7 witness: a concrete read while the gate is open (Sampling) leaves
`min_free` unchanged. -/
theorem C7_witness :
    ((read (monitor (init .cuda true .ok 1)) (mkCudaQuery 5 10)).getD
        (init .cuda true .ok 1)).data "min_free"
      = (monitor (init .cuda true .ok 1)).data "min_free" :=
  (C7_theorem (monitor (init .cuda true .ok 1)) (mkCudaQuery 5 10) _ rfl).1

/-- C8: `monitor()` is idempotent: a second call without an intervening
`stop()` is a no-op (`monitor (monitor m) = monitor m`; if the gate is
already open, `monitor` is the identity), and `monitor` itself never touches
the aggregate map — the episode clear happens in the background loop's wake,
which a second `set()` of an already-set gate does not re-trigger. -/
theorem C8_theorem (m : MemUsageMonitor) :
    monitor (monitor m) = monitor m
    ∧ (monitor m).data = m.data
    ∧ (m.run_flag = true → monitor m = m) := by
  refine ⟨rfl, rfl, fun h => ?_⟩
  cases m
  simp_all [monitor]

/-- C8 witness: on a monitor whose gate is already open, `monitor()` is the
identity. -/
theorem C8_witness :
    monitor (monitor (init .cuda true .ok 1)) = monitor (init .cuda true .ok 1) :=
  (C8_theorem (monitor (init .cuda true .ok 1))).2.2 rfl

/-- C9: for every non-Disabled freshly-constructed monitor (no sampling
episode has ever written `min_free`), a `read()` finds `min_free = 0` (the
map's defaultdict default) and stores `system_peak` equal to the device's
full total memory (the `total` it just queried). -/
theorem C9_theorem (t : DeviceType) (avail : Bool) (p : ProbeResult) (rate : Int)
    (q : DeviceQuery) (m' : MemUsageMonitor) (ft : Int × Int)
    (hd : (init t avail p rate).disabled = false)
    (hq : queryFreeTotal t q = some ft)
    (h : read (init t avail p rate) q = some m') :
    m'.data "min_free" = 0 ∧ m'.data "total" = ft.2 ∧ m'.data "system_peak" = ft.2 := by
  have h1 : m'.data "min_free" = 0 := by
    rw [read_min_free _ q m' h]; rfl
  have h2 := read_free_total _ q m' ft h hq hd
  have h3 := read_system_peak _ q m' h hd
  refine ⟨h1, h2.2, ?_⟩
  rw [h3, h2.2]
  simp [init]

/-- C9 witness: a fresh cuda monitor read with free 5 / total 10 yields
`min_free = 0` and `system_peak = 10`. -/
theorem C9_witness :
    (((read (init .cuda true .ok 1) (mkCudaQuery 5 10)).getD (init .cuda true .ok 1)).data "min_free" = 0)
    ∧ (((read (init .cuda true .ok 1) (mkCudaQuery 5 10)).getD (init .cuda true .ok 1)).data "system_peak" = 10) :=
  ⟨(C9_theorem .cuda true .ok 1 (mkCudaQuery 5 10) _ (5, 10) rfl rfl rfl).1,
   (C9_theorem .cuda true .ok 1 (mkCudaQuery 5 10) _ (5, 10) rfl rfl rfl).2.2⟩

/-- C10: for every non-Disabled monitor bound to an hpu-type device, after
every `read()` the aggregate map satisfies `reserved = reserved_peak`: both
are assigned the same `mem_info.used` figure. -/
theorem C10_theorem (m : MemUsageMonitor) (q : DeviceQuery) (m' : MemUsageMonitor)
    (ht : m.device = .hpu) (h : read m q = some m') (hd : m.disabled = false) :
    m'.data "reserved" = m'.data "reserved_peak" := by
  simp [read, hd, ht] at h
  subst h
  simp [updateKey]

/-- C10 witness: a concrete hpu monitor read with used 3 yields equal
`reserved` and `reserved_peak`. -/
theorem C10_witness :
    ((read (init .hpu true .ok 1) (mkHpuQuery 5 10 3)).getD (init .hpu true .ok 1)).data "reserved"
      = ((read (init .hpu true .ok 1) (mkHpuQuery 5 10 3)).getD (init .hpu true .ok 1)).data "reserved_peak" :=
  C10_theorem (init .hpu true .ok 1) (mkHpuQuery 5 10 3) _ rfl rfl rfl

end Memmon
